import Mathlib

/-
Verification of the portfolio-chatbot Streamlit app (src/app.py) against its
natural-language specification.

The embedding below translates the relevant parts of src/app.py:
- the Turn / Conversation data model (role-tagged message dictionaries),
- generate_response (lines 61-79), with the external completion call left as
  an explicit parameter returning an Except value (an exception or a response),
- the chatbot submit handler (lines 115-120),
- session-state seeding (lines 105-108),
- credential resolution (lines 24-31),
- a small heap model of Python list objects, used to settle the claim that
  generate_response does not mutate its conversation_history argument.
-/

namespace PortfolioChatbot

/-- One chat message: a Python dict with role and content keys. -/
structure Turn where
  role : String
  content : String
deriving DecidableEq

/-- The fixed system instruction built at src/app.py lines 63-65. -/
def systemTurn : Turn :=
  ⟨"system", "You are a friendly portfolio assistant who answers questions about my work, experience, and projects."⟩

/-- The seeded assistant greeting from src/app.py lines 106-108. -/
def greetingTurn : Turn :=
  ⟨"assistant", "Hi, I'm your portfolio assistant! How can I help you today?"⟩

/-- Embedding of the Python str.strip applied to the completion text at
src/app.py line 76: drop leading and trailing whitespace characters. -/
def stripChars (cs : List Char) : List Char :=
  ((cs.dropWhile Char.isWhitespace).reverse.dropWhile Char.isWhitespace).reverse

/-- String-level wrapper of stripChars. -/
def pyStrip (s : String) : String :=
  ⟨stripChars s.data⟩

/-- The message list built by generate_response at src/app.py lines 63-67:
a new list holding the system turn, then the turns of conversation_history,
then the new user turn. -/
def buildMessages (prompt : String) (conversation_history : List Turn) : List Turn :=
  let messages := [systemTurn]
  let messages := messages ++ conversation_history
  let messages := messages ++ [⟨"user", prompt⟩]
  messages

/-- One choice of the completion response (response.choices of the openai
client), carrying its message. -/
structure Choice where
  message : Turn
deriving DecidableEq

/-- The completion response shape expected at src/app.py line 76: a list of
choices with a message and content field. -/
structure ChatResponse where
  choices : List Choice
deriving DecidableEq

/-- The external completion endpoint (openai.ChatCompletion.create at
src/app.py lines 71-75), as a parameter: an error value stands for a raised
exception, carrying the text of the exception. -/
abbrev CompletionCall : Type :=
  List Turn → Except String ChatResponse

/-- The body of the try block at src/app.py lines 70-76: call the endpoint,
index the first choice (an empty choices list raises an IndexError, also
caught by the except clause), and strip the content. -/
def tryBody (call : CompletionCall) (messages : List Turn) : Except String String :=
  match call messages with
  | .error e => .error e
  | .ok response =>
    match response.choices with
    | [] => .error "list index out of range"
    | c :: _ => .ok (pyStrip c.message.content)

/-- generate_response at src/app.py lines 61-79: build the message list,
attempt the completion, and on any exception return the stringified error
prefixed by the f-string text Error: (line 79). -/
def generate_response (call : CompletionCall) (prompt : String)
    (conversation_history : List Turn) : String :=
  let messages := buildMessages prompt conversation_history
  match tryBody call messages with
  | .ok text => text
  | .error e => "Error: " ++ e

/-- The chatbot submit handler at src/app.py lines 115-120: append the user
turn to the session messages, generate a response from the updated list, and
append the response as an assistant turn. -/
def chatStep (call : CompletionCall) (user_input : String)
    (messages0 : List Turn) : List Turn :=
  let messages1 := messages0 ++ [⟨"user", user_input⟩]
  let response := generate_response call user_input messages1
  messages1 ++ [⟨"assistant", response⟩]

/-- The message list the handler actually sends to the completion endpoint:
generate_response at line 119 receives the session list to which the new user
turn was already appended at line 117, and line 67 appends it again. -/
def handlerSentMessages (user_input : String) (messages0 : List Turn) : List Turn :=
  buildMessages user_input (messages0 ++ [⟨"user", user_input⟩])

/-- The seeded conversation from src/app.py lines 106-108. -/
def initMessages : List Turn :=
  [greetingTurn]

/-- Session-state seeding at src/app.py lines 105-108: when the messages key
is absent the seeded list is installed, otherwise the stored list is kept. -/
def initSession (stored : Option (List Turn)) : List Turn :=
  match stored with
  | none => initMessages
  | some ms => ms

/-- The three credential sources read at src/app.py lines 24-31: the
OPENAI_API_KEY environment variable, the flat st.secrets entry, and the
st.secrets general section (itself optional) with its OPENAI_API_KEY entry. -/
structure CredSources where
  envKey : Option String
  secretsTop : Option String
  secretsGeneral : Option (Option String)
deriving DecidableEq

/-- Outcome of credential resolution: either openai.api_key is assigned a
value, or no key is set and st.error shows a banner (line 31) while the
script continues. -/
inductive CredOutcome where
  | keySet (value : String)
  | errorShown
deriving DecidableEq

/-- The if/elif/else chain at src/app.py lines 24-31. -/
def resolveCredential (s : CredSources) : CredOutcome :=
  match s.envKey with
  | some v => .keySet v
  | none =>
    match s.secretsTop with
    | some v => .keySet v
    | none =>
      match s.secretsGeneral with
      | some g =>
        match g with
        | some v => .keySet v
        | none => .errorShown
      | none => .errorShown

/-- A Turn whose role is one the Conversation may store: user or assistant. -/
def validRole (t : Turn) : Bool :=
  t.role == "user" || t.role == "assistant"

/-- A heap of Python list objects, addressed by position; used to model the
aliasing behaviour of the list statements in generate_response. -/
def readList (heap : List (List Turn)) (a : Nat) : List Turn :=
  heap.getD a []

/-- Assign a new value to the list object at an address. -/
def writeList (heap : List (List Turn)) (a : Nat) (v : List Turn) : List (List Turn) :=
  heap.set a v

/-- Heap-level embedding of src/app.py lines 63-67: the literal [ ... ]
allocates a fresh list object, messages.extend(conversation_history) reads
the history object and writes only the fresh object, and messages.append
writes only the fresh object. Returns the address of the fresh messages list
and the final heap. -/
def generate_response_heap (prompt : String) (histAddr : Nat)
    (heap : List (List Turn)) : Nat × List (List Turn) :=
  let msgAddr := heap.length
  let h1 := heap ++ [[systemTurn]]
  let h2 := writeList h1 msgAddr (readList h1 msgAddr ++ readList h1 histAddr)
  let h3 := writeList h2 msgAddr (readList h2 msgAddr ++ [⟨"user", prompt⟩])
  (msgAddr, h3)

/-- The completion stub of the end-to-end scenario: every request is answered
with the single choice Hi there. -/
def stubCall : CompletionCall :=
  fun _ => .ok ⟨[⟨⟨"assistant", "Hi there"⟩⟩]⟩

/-- Claim C1: for every list of N prior turns and every user string S, the
message list built by generate_response has length N + 2, its element 0 is
the fixed system instruction turn, and its last element is the user turn
carrying S. -/
theorem buildMessages_length_head_last (prompt : String) (hist : List Turn) :
    (buildMessages prompt hist).length = hist.length + 2 ∧
    (buildMessages prompt hist).head? = some systemTurn ∧
    (buildMessages prompt hist).getLast? = some ⟨"user", prompt⟩ := by
  refine ⟨?_, ?_, ?_⟩
  · simp [buildMessages]
  · simp [buildMessages]
  · show (([systemTurn] ++ hist) ++ [(⟨"user", prompt⟩ : Turn)]).getLast? = _
    exact List.getLast?_concat _

/-- Claim C2: when the completion call raises, generate_response returns a
string containing the substring Error: instead of propagating the exception,
and the submit handler still appends exactly one new assistant Turn holding
that string. -/
theorem chatStep_error_contained (call : CompletionCall) (S e : String) (hist : List Turn)
    (h : call (buildMessages S (hist ++ [⟨"user", S⟩])) = .error e) :
    (∃ t, generate_response call S (hist ++ [⟨"user", S⟩]) = "Error:" ++ t) ∧
    chatStep call S hist = hist ++ [⟨"user", S⟩, ⟨"assistant", "Error: " ++ e⟩] := by
  have hg : generate_response call S (hist ++ [⟨"user", S⟩]) = "Error: " ++ e := by
    simp [generate_response, tryBody, h]
  have hsplit : ("Error: " : String) = "Error:" ++ " " := rfl
  refine ⟨⟨" " ++ e, ?_⟩, ?_⟩
  · rw [hg, hsplit, String.append_assoc]
  · simp [chatStep, hg]

/-- Witness for chatStep_error_contained at a concrete always-failing call. -/
theorem chatStep_error_contained_witness :
    (∃ t, generate_response (fun _ => .error "boom") "hi" ([] ++ [⟨"user", "hi"⟩]) = "Error:" ++ t) ∧
    chatStep (fun _ => .error "boom") "hi" [] = [] ++ [⟨"user", "hi"⟩, ⟨"assistant", "Error: " ++ "boom"⟩] :=
  chatStep_error_contained (fun _ => .error "boom") "hi" "boom" [] rfl

/-- Claim C3: the handler appends the new user turn to the session list
before calling generate_response on that same list, so the request actually
sent to the completion service ends with two consecutive identical user
turns. -/
theorem handlerSentMessages_duplicate_user (S : String) (hist : List Turn) :
    handlerSentMessages S hist = systemTurn :: (hist ++ [⟨"user", S⟩, ⟨"user", S⟩]) ∧
    ∃ front, handlerSentMessages S hist = front ++ [⟨"user", S⟩, ⟨"user", S⟩] := by
  constructor
  · simp [handlerSentMessages, buildMessages]
  · exact ⟨systemTurn :: hist, by simp [handlerSentMessages, buildMessages]⟩

/-- Claim C4: credential resolution tries the environment variable, the flat
secret store, then the general section, in that order; the first source that
holds the key determines the value, and when none holds it no key is set and
the error banner is the outcome. -/
theorem resolveCredential_priority :
    (∀ v top gen, resolveCredential ⟨some v, top, gen⟩ = .keySet v) ∧
    (∀ v gen, resolveCredential ⟨none, some v, gen⟩ = .keySet v) ∧
    (∀ v, resolveCredential ⟨none, none, some (some v)⟩ = .keySet v) ∧
    resolveCredential ⟨none, none, some none⟩ = .errorShown ∧
    resolveCredential ⟨none, none, none⟩ = .errorShown :=
  ⟨fun _ _ _ => rfl, fun _ _ => rfl, fun _ => rfl, rfl, rfl⟩

lemma validRole_user (s : String) : validRole ⟨"user", s⟩ = true := by
  simp [validRole]

lemma validRole_assistant (s : String) : validRole ⟨"assistant", s⟩ = true := by
  simp [validRole]

/-- Claim C5: every Turn stored in the Conversation has role user or
assistant: the seeded conversation satisfies this, one handler step preserves
it, and the synthesized system turn exists only at the head of the request
built for the API. -/
theorem conversation_roles_invariant (call : CompletionCall) (S : String) (hist : List Turn)
    (h : ∀ t ∈ hist, validRole t = true) :
    (∀ t ∈ initMessages, validRole t = true) ∧
    (∀ t ∈ chatStep call S hist, validRole t = true) ∧
    (buildMessages S hist).head? = some systemTurn := by
  refine ⟨by decide, ?_, by simp [buildMessages]⟩
  intro t ht
  simp only [chatStep, List.append_assoc, List.mem_append, List.mem_cons,
    List.mem_singleton, List.not_mem_nil, or_false] at ht
  rcases ht with ht | ht | ht
  · exact h t ht
  · rw [ht]; exact validRole_user S
  · rw [ht]; exact validRole_assistant _

/-- Witness for conversation_roles_invariant at the seeded conversation. -/
theorem conversation_roles_invariant_witness :
    (∀ t ∈ initMessages, validRole t = true) ∧
    (∀ t ∈ chatStep (fun _ => .error "x") "q" initMessages, validRole t = true) ∧
    (buildMessages "q" initMessages).head? = some systemTurn :=
  conversation_roles_invariant (fun _ => .error "x") "q" initMessages (by decide)

/-- Claim C6: one handler step appends a user Turn then an assistant Turn,
growing the Conversation by exactly 2, with every previously stored Turn
unchanged and in its place. -/
theorem chatStep_appends_two (call : CompletionCall) (S : String) (hist : List Turn) :
    (chatStep call S hist).length = hist.length + 2 ∧
    ∃ r, chatStep call S hist = hist ++ [⟨"user", S⟩, ⟨"assistant", r⟩] := by
  refine ⟨by simp [chatStep], generate_response call S (hist ++ [⟨"user", S⟩]), ?_⟩
  simp [chatStep]

/-- Claim C7: the Session Store is lazily initialized: absent, the
Conversation becomes the single seeded assistant greeting; present, it is
left exactly as it was. -/
theorem initSession_lazy :
    initSession none = [greetingTurn] ∧ ∀ ms, initSession (some ms) = ms :=
  ⟨rfl, fun _ => rfl⟩

/-- Claim C8: when the completion call succeeds, generate_response returns
the content of the first choice of the response with surrounding whitespace
stripped. -/
theorem generate_response_success (call : CompletionCall) (S : String) (hist : List Turn)
    (r : ChatResponse) (c : Choice) (rest : List Choice)
    (hcall : call (buildMessages S hist) = .ok r) (hchoices : r.choices = c :: rest) :
    generate_response call S hist = pyStrip c.message.content := by
  simp [generate_response, tryBody, hcall, hchoices]

/-- Witness for generate_response_success with a concrete stubbed response. -/
theorem generate_response_success_witness :
    generate_response (fun _ => .ok ⟨[⟨⟨"assistant", " hello  "⟩⟩]⟩) "q" [] = "hello" := by
  have h := generate_response_success (fun _ => .ok ⟨[⟨⟨"assistant", " hello  "⟩⟩]⟩) "q" []
    ⟨[⟨⟨"assistant", " hello  "⟩⟩]⟩ ⟨⟨"assistant", " hello  "⟩⟩ [] rfl rfl
  rw [h]; decide

/-- Claim C9: from the freshly seeded Conversation, submitting Hello with the
completion call stubbed to answer Hi there leaves the Conversation equal to
the greeting, the user turn Hello, and the assistant turn Hi there. -/
theorem end_to_end_hello :
    chatStep stubCall "Hello" initMessages =
      [greetingTurn, ⟨"user", "Hello"⟩, ⟨"assistant", "Hi there"⟩] := by
  decide

lemma readList_append_lt (heap : List (List Turn)) (v : List Turn) (a : Nat)
    (h : a < heap.length) : readList (heap ++ [v]) a = readList heap a := by
  simp [readList, List.getD_eq_getElem?_getD, List.getElem?_append, h]

lemma readList_append_self (heap : List (List Turn)) (v : List Turn) :
    readList (heap ++ [v]) heap.length = v := by
  rw [readList, List.getD_eq_getElem?_getD, List.getElem?_append_right (le_refl _)]
  simp

lemma readList_set_self (heap : List (List Turn)) (a : Nat) (v : List Turn)
    (h : a < heap.length) : readList (writeList heap a v) a = v := by
  simp [readList, writeList, List.getD_eq_getElem?_getD,
    List.getElem?_set_eq_of_lt _ h]

lemma readList_set_ne (heap : List (List Turn)) (a b : Nat) (v : List Turn)
    (hab : a ≠ b) : readList (writeList heap a v) b = readList heap b := by
  simp [readList, writeList, List.getD_eq_getElem?_getD, List.getElem?_set_ne hab]

/-- Claim C10: generate_response never mutates its conversation_history
argument: in the heap model of lines 63-67 the history object is unchanged
after the body runs (the statements write only the fresh messages object,
whether the later call succeeds or fails), and the fresh object holds exactly
the built request. -/
theorem generate_response_heap_no_mutation (prompt : String) (histAddr : Nat)
    (heap : List (List Turn)) (h : histAddr < heap.length) :
    readList (generate_response_heap prompt histAddr heap).2 histAddr =
      readList heap histAddr ∧
    readList (generate_response_heap prompt histAddr heap).2
        (generate_response_heap prompt histAddr heap).1 =
      buildMessages prompt (readList heap histAddr) := by
  have hne : heap.length ≠ histAddr := (Nat.ne_of_lt h).symm
  have hb1 : heap.length < (heap ++ [[systemTurn]]).length := by simp
  constructor
  · simp only [generate_response_heap]
    rw [readList_set_ne _ _ _ _ hne, readList_set_ne _ _ _ _ hne,
      readList_append_lt _ _ _ h]
  · simp only [generate_response_heap]
    rw [readList_set_self _ _ _ (by simp [writeList]), readList_set_self _ _ _ hb1,
      readList_append_self, readList_append_lt _ _ _ h]
    rfl

/-- Witness for generate_response_heap_no_mutation on a one-object heap. -/
theorem generate_response_heap_no_mutation_witness :
    readList (generate_response_heap "hi" 0 [[greetingTurn]]).2 0 =
      readList [[greetingTurn]] 0 ∧
    readList (generate_response_heap "hi" 0 [[greetingTurn]]).2
        (generate_response_heap "hi" 0 [[greetingTurn]]).1 =
      buildMessages "hi" (readList [[greetingTurn]] 0) :=
  generate_response_heap_no_mutation "hi" 0 [[greetingTurn]] (by decide)

end PortfolioChatbot
